import Mathlib

/-
Verification of the stripe-webhook repository's ingestion and
idempotent-dispatch pipeline.

The development shallowly embeds the two webhook dispatchers of the
repository and the checkout record builder:

- `handler000` embeds the serverless handler of src/unnamed/part_000
  (signature check, idempotency ledger `processedEvents`, event log
  `stripeEvents`, checkout processing, rollback on failure).
- `handler009` embeds the express handler of src/unnamed/part_009
  (signature check, `eventLog` records with `action` markers,
  idempotency ledger, rollback on failure).
- `buildRecord` embeds `processCheckoutCompleted` of src/unnamed/part_000
  (the CheckoutRecordBuilder of the specification).

External collaborators are abstracted as function parameters: the
signature verifier `stripe.webhooks.constructEvent` becomes a value of
type `Verifier`, and the downstream sink (`storeSubscription` body /
Airtable call) becomes a `Sink`.  The platform JSON codec used by the
body-parsing middleware is modelled by `Json.parse` (restricted to
strings without escape sequences and integer numerals, which covers
every value exercised here) and `Json.stringify` models the JavaScript
`JSON.stringify` serialization (no whitespace, insertion order).

State that the source keeps in module-level globals (`processedEvents`,
`stripeEvents`, `eventLog`) is threaded explicitly through `State000`
and `State009`.  Invocation counters (`handlerCalls`, `sinkCalls`)
instrument the states to express "zero additional handler or sink
invocations"; they count calls of `processCheckoutCompleted` and of the
sink respectively and are not part of the source's observable data.
-/

/-- JavaScript-style JSON values, as produced by the express/Next body
parser that feeds `req.body` in src/unnamed/part_000. -/
inductive Json where
  | null
  | jbool (b : Bool)
  | num (n : Int)
  | str (s : String)
  | arr (xs : List Json)
  | obj (fs : List (String × Json))

mutual

/-- Model of JavaScript `JSON.stringify`: canonical serialization with
no whitespace, object fields in insertion order.  Used by
src/unnamed/part_000 line 12, `const rawBody = JSON.stringify(req.body)`. -/
def Json.stringify : Json → String
  | .null => "null"
  | .jbool true => "true"
  | .jbool false => "false"
  | .num n => toString n
  | .str s => "\"" ++ s ++ "\""
  | .arr xs => "[" ++ stringifyItems xs ++ "]"
  | .obj fs => "\x7b" ++ stringifyFields fs ++ "\x7d"

/-- Serialize array elements, comma separated. -/
def stringifyItems : List Json → String
  | [] => ""
  | [x] => Json.stringify x
  | x :: y :: tl => Json.stringify x ++ "," ++ stringifyItems (y :: tl)

/-- Serialize object fields, comma separated. -/
def stringifyFields : List (String × Json) → String
  | [] => ""
  | [(k, v)] => "\"" ++ k ++ "\":" ++ Json.stringify v
  | (k, v) :: f :: tl => "\"" ++ k ++ "\":" ++ Json.stringify v ++ "," ++ stringifyFields (f :: tl)

end

/-- The character left brace. -/
def lbrace : Char := Char.ofNat 123

/-- The character right brace. -/
def rbrace : Char := Char.ofNat 125

/-- JSON insignificant whitespace characters. -/
def isJsonWs (c : Char) : Bool :=
  c == ' ' || c == '\n' || c == '\t' || c == '\r'

/-- Drop leading JSON whitespace. -/
def skipWs : List Char → List Char
  | [] => []
  | c :: cs => if isJsonWs c then skipWs cs else c :: cs

/-- Parse the remainder of a JSON string literal (opening quote already
consumed); escape sequences are outside the modelled fragment. -/
def parseStrChars : List Char → Option (List Char × List Char)
  | [] => none
  | c :: cs =>
    if c == '"' then some ([], cs)
    else if c == '\\' then none
    else (parseStrChars cs).map (fun p => (c :: p.1, p.2))

/-- Split a leading run of decimal digits. -/
def parseDigits : List Char → List Char × List Char
  | [] => ([], [])
  | c :: cs =>
    if c.isDigit then
      let p := parseDigits cs
      (c :: p.1, p.2)
    else ([], c :: cs)

/-- Numeric value of a digit run. -/
def digitsToNat (ds : List Char) : Nat :=
  ds.foldl (fun a c => a * 10 + (c.toNat - 48)) 0

/-- Require the given characters verbatim at the head of the input. -/
def expectChars : List Char → List Char → Option (List Char)
  | [], rest => some rest
  | e :: es, c :: cs => if e == c then expectChars es cs else none
  | _ :: _, [] => none

mutual

/-- Fuel-indexed JSON value parser (model of the platform `JSON.parse`
on the fragment without escape sequences or fractional numbers). -/
def parseVal : Nat → List Char → Option (Json × List Char)
  | 0, _ => none
  | fuel + 1, input =>
    match skipWs input with
    | [] => none
    | c :: cs =>
      if c == 'n' then (expectChars ['u', 'l', 'l'] cs).map (fun r => (Json.null, r))
      else if c == 't' then (expectChars ['r', 'u', 'e'] cs).map (fun r => (Json.jbool true, r))
      else if c == 'f' then (expectChars ['a', 'l', 's', 'e'] cs).map (fun r => (Json.jbool false, r))
      else if c == '"' then (parseStrChars cs).map (fun p => (Json.str (String.mk p.1), p.2))
      else if c == '[' then
        match skipWs cs with
        | ']' :: r => some (Json.arr [], r)
        | rest => (parseItems fuel rest).map (fun p => (Json.arr p.1, p.2))
      else if c == lbrace then
        match skipWs cs with
        | d :: r =>
          if d == rbrace then some (Json.obj [], r)
          else (parseFields fuel (d :: r)).map (fun p => (Json.obj p.1, p.2))
        | [] => none
      else if c == '-' then
        match parseDigits cs with
        | ([], _) => none
        | (ds, r) => some (Json.num (-(digitsToNat ds : Int)), r)
      else if c.isDigit then
        match parseDigits (c :: cs) with
        | ([], _) => none
        | (ds, r) => some (Json.num (digitsToNat ds : Int), r)
      else none

/-- Parse the elements of a non-empty JSON array up to `]`. -/
def parseItems : Nat → List Char → Option (List Json × List Char)
  | 0, _ => none
  | fuel + 1, input =>
    match parseVal fuel input with
    | none => none
    | some (v, rest) =>
      match skipWs rest with
      | ',' :: r2 => (parseItems fuel r2).map (fun p => (v :: p.1, p.2))
      | ']' :: r2 => some ([v], r2)
      | _ => none

/-- Parse the fields of a non-empty JSON object up to the closing brace. -/
def parseFields : Nat → List Char → Option (List (String × Json) × List Char)
  | 0, _ => none
  | fuel + 1, input =>
    match skipWs input with
    | c :: cs =>
      if c == '"' then
        match parseStrChars cs with
        | some (k, r1) =>
          match skipWs r1 with
          | ':' :: r2 =>
            match parseVal fuel r2 with
            | some (v, r3) =>
              match skipWs r3 with
              | ',' :: r4 => (parseFields fuel r4).map (fun p => ((String.mk k, v) :: p.1, p.2))
              | d :: r4 =>
                if d == rbrace then some ([(String.mk k, v)], r4) else none
              | [] => none
            | none => none
          | _ => none
        | none => none
      else none
    | [] => none

end

/-- Model of the platform `JSON.parse`: the whole input must be one JSON
value followed only by whitespace.  This is what the express/Next JSON
body-parsing middleware applies to the wire bytes before
src/unnamed/part_000 sees `req.body`. -/
def Json.parse (s : String) : Option Json :=
  match parseVal (4 * (s.length + 1)) s.toList with
  | some (v, rest) => if (skipWs rest).isEmpty then some v else none
  | none => none

/-- ASCII lower-casing of a string, model of JavaScript `toLowerCase` on
the identifiers scanned here. -/
def strToLower (s : String) : String := String.mk (s.toList.map Char.toLower)

/-- Check that `needle` occurs verbatim at the head of `hay`. -/
def charsBegin : List Char → List Char → Bool
  | [], _ => true
  | _ :: _, [] => false
  | a :: as, b :: bs => a == b && charsBegin as bs

/-- Check that `needle` occurs somewhere inside `hay`. -/
def charsHasSub (needle : List Char) : List Char → Bool
  | [] => charsBegin needle []
  | c :: cs => charsBegin needle (c :: cs) || charsHasSub needle cs

/-- Model of the JavaScript `String.prototype.includes` substring test,
used by the source-channel fallback of src/unnamed/part_000 lines 130-137. -/
def strIncludes (hay needle : String) : Bool := charsHasSub needle.toList hay.toList

/-- Stripe coupon object, the target of `discount.discount?.coupon?.id`. -/
structure Coupon where
  id : String
deriving DecidableEq

/-- The `discount` sub-object of one entry of the discount breakdown. -/
structure Discount where
  coupon : Option Coupon
deriving DecidableEq

/-- One entry of `session.total_details.breakdown.discounts`. -/
structure DiscountItem where
  discount : Option Discount
deriving DecidableEq

/-- The `breakdown` object of `session.total_details`. -/
structure Breakdown where
  discounts : Option (List DiscountItem)
deriving DecidableEq

/-- The `total_details` object of a checkout session. -/
structure TotalDetails where
  breakdown : Option Breakdown
deriving DecidableEq

/-- The `metadata` object of a checkout session; every field is
optional exactly as in the loosely typed payload. -/
structure SessionMetadata where
  utm_source : Option String
  utm_medium : Option String
  utm_campaign : Option String
  source_channel : Option String
deriving DecidableEq

/-- Stripe price object carried by a line item. -/
structure Price where
  id : String
  product : String
deriving DecidableEq

/-- One line item of `session.line_items.data`. -/
structure LineItem where
  price : Option Price
deriving DecidableEq

/-- The `line_items` object of a checkout session. -/
structure LineItems where
  data : Option (List LineItem)
deriving DecidableEq

/-- The fields of a `checkout.session.completed` payload consumed by
`processCheckoutCompleted` in src/unnamed/part_000 lines 78-148. -/
structure Session where
  id : String
  customer : Option String
  subscription : Option String
  amount_total : Int
  currency : String
  metadata : Option SessionMetadata
  line_items : Option LineItems
  client_reference_id : Option String
  total_details : Option TotalDetails
deriving DecidableEq

/-- The `data` wrapper of a Stripe event. -/
structure EventData where
  object : Session
deriving DecidableEq

/-- A verified Stripe event as returned by `stripe.webhooks.constructEvent`. -/
structure Event where
  id : String
  type : String
  created : Int
  data : EventData
deriving DecidableEq

/-- JavaScript truthiness on an optional string: `undefined` and the
empty string are falsy. -/
def jsTruthy : Option String → Option String
  | some s => if s = "" then none else some s
  | none => none

/-- The discount list reached by the optional chain
`session.total_details?.breakdown?.discounts` (absent levels yield the
empty scan, matching the skipped `if` of part_000 line 116). -/
def discountsOf (s : Session) : List DiscountItem :=
  match s.total_details with
  | some td =>
    match td.breakdown with
    | some b => b.discounts.getD []
    | none => []
  | none => []

/-- Whether one discount entry carries the PHENOM100 coupon, the test of
src/unnamed/part_000 line 118 (`discount.discount?.coupon?.id === 'PHENOM100'`). -/
def couponHit (d : DiscountItem) : Bool :=
  match d.discount with
  | some dd =>
    match dd.coupon with
    | some c => c.id == "PHENOM100"
    | none => false
  | none => false

/-- The discount scan loop of src/unnamed/part_000 lines 117-124: walk
the breakdown in order, stop (`break`) at the first PHENOM100 coupon,
producing the `phenom_code` and `phenom_partner` values. -/
def phenomScan : List DiscountItem → String × Bool
  | [] => ("", false)
  | d :: rest => if couponHit d then ("PHENOM100", true) else phenomScan rest

/-- The first line item reached by `session.line_items?.data?.[0]`. -/
def firstLineItem (s : Session) : Option LineItem :=
  match s.line_items with
  | some li =>
    match li.data with
    | some l => l.head?
    | none => none
  | none => none

/-- The source-channel inference of src/unnamed/part_000 lines 128-137:
prefer truthy `metadata.source_channel`, else keyword-scan the
lower-cased `client_reference_id` in the fixed priority order
social, sms, email, phenom_landing; no match leaves the channel empty. -/
def sourceChannelOf (s : Session) : String :=
  match jsTruthy (s.metadata.bind SessionMetadata.source_channel) with
  | some sc => sc
  | none =>
    match jsTruthy s.client_reference_id with
    | some ref0 =>
      let ref := strToLower ref0
      if strIncludes ref "social" then "social"
      else if strIncludes ref "sms" then "sms"
      else if strIncludes ref "email" then "email"
      else if strIncludes ref "phenom_landing" then "phenom_landing"
      else ""
    | none => ""

/-- The normalized subscription record built by
`processCheckoutCompleted` in src/unnamed/part_000 lines 82-137
(the NormalizedCheckoutRecord of the specification). -/
structure SubscriptionRecord where
  customer_id : Option String
  subscription_id : Option String
  session_id : String
  price_id : Option String
  product_id : Option String
  phenom_code : String
  phenom_partner : Bool
  source_channel : String
  utm_source : String
  utm_medium : String
  utm_campaign : String
  created_at : String
  amount_total : Int
  currency : String
deriving DecidableEq

/-- The record construction of `processCheckoutCompleted`
(src/unnamed/part_000 lines 82-137) as a function of the build-time
clock reading `now` (the source's `new Date().toISOString()`) and the
session payload. -/
def buildRecord (now : String) (session : Session) : SubscriptionRecord :=
  let pc := phenomScan (discountsOf session)
  let priceIds : Option String × Option String :=
    match firstLineItem session with
    | some item => (item.price.map Price.id, item.price.map Price.product)
    | none => (none, none)
  { customer_id := session.customer
    subscription_id := session.subscription
    session_id := session.id
    price_id := priceIds.1
    product_id := priceIds.2
    phenom_code := pc.1
    phenom_partner := pc.2
    source_channel := sourceChannelOf session
    utm_source := (session.metadata.bind SessionMetadata.utm_source).getD ""
    utm_medium := (session.metadata.bind SessionMetadata.utm_medium).getD ""
    utm_campaign := (session.metadata.bind SessionMetadata.utm_campaign).getD ""
    created_at := now
    amount_total := session.amount_total
    currency := session.currency }

/-- All fields of a `SubscriptionRecord` except the build-time
timestamp `created_at`. -/
def recordCore (r : SubscriptionRecord) :
    Option String × Option String × String × Option String × Option String ×
    String × Bool × String × String × String × String × Int × String :=
  (r.customer_id, r.subscription_id, r.session_id, r.price_id, r.product_id,
   r.phenom_code, r.phenom_partner, r.source_channel, r.utm_source,
   r.utm_medium, r.utm_campaign, r.amount_total, r.currency)

/-- Abstraction of `stripe.webhooks.constructEvent`: from the bytes
handed to verification and the `stripe-signature` header value, either a
trusted event or a verification failure message. -/
abbrev Verifier := String → Option String → Except String Event

/-- Abstraction of the downstream sink call performed by
`storeSubscription` (the Airtable delivery). -/
abbrev Sink := SubscriptionRecord → Except String Unit

/-- An inbound request as seen by the part_000 handler: `rawBytes` are
the wire bytes of the body, `body` is the structure the platform body
parser produced from them (`Json.parse rawBytes = some body` for every
request the platform accepts), `sig` the `stripe-signature` header. -/
structure Request000 where
  method : String
  rawBytes : String
  body : Json
  sig : Option String

/-- The byte sequence that src/unnamed/part_000 line 12 hands to
signature verification: `JSON.stringify(req.body)`, a re-serialization
of the already parsed body, not the wire bytes. -/
def verifiedBytes000 (req : Request000) : String := Json.stringify req.body

/-- The raw event record pushed onto `stripeEvents` by
src/unnamed/part_000 lines 37-44. -/
structure RawEventRecord where
  event_id : String
  type : String
  created : Int
  raw_payload : Event
  processed_at : String
  retry_detected : Bool
deriving DecidableEq

/-- Construction of the raw event record of part_000 lines 37-44. -/
def rawRecord000 (now : String) (e : Event) : RawEventRecord :=
  { event_id := e.id
    type := e.type
    created := e.created
    raw_payload := e
    processed_at := now
    retry_detected := false }

/-- The module-level mutable state of src/unnamed/part_000
(`processedEvents` ledger and `stripeEvents` log) plus instrumentation
counters for handler and sink invocations. -/
structure State000 where
  processedEvents : List String
  stripeEvents : List RawEventRecord
  handlerCalls : Nat
  sinkCalls : Nat
deriving DecidableEq

/-- The distinct responses produced by the part_000 handler, one
constructor per `res.json` site. -/
inductive Response000 where
  | methodNotAllowed
  | webhookError (msg : String)
  | duplicate (event_id : String)
  | success (event_id : String) (event_type : String)
  | processingFailed (event_id : String)
deriving DecidableEq

/-- HTTP status of each part_000 response. -/
def Response000.statusOf : Response000 → Nat
  | .methodNotAllowed => 405
  | .webhookError _ => 400
  | .duplicate _ => 200
  | .success _ _ => 200
  | .processingFailed _ => 500

/-- The `received` field of the JSON body, where present. -/
def Response000.receivedFlag : Response000 → Option Bool
  | .duplicate _ => some true
  | .success _ _ => some true
  | _ => none

/-- The `processed` field of the JSON body, where present. -/
def Response000.processedFlag : Response000 → Option Bool
  | .duplicate _ => some false
  | .success _ _ => some true
  | _ => none

/-- The `reason` field of the JSON body, where present. -/
def Response000.reasonOf : Response000 → Option String
  | .duplicate _ => some "duplicate"
  | _ => none

/-- The webhook handler of src/unnamed/part_000 lines 6-76.  The
verifier and the sink are the abstracted external collaborators; `now`
is the clock reading used for both the log timestamp and the record's
`created_at`.  The `try` around processing is modelled by matching on
the sink's `Except` result; the `catch` branch removes the ledger claim
again (line 69) and answers 500. -/
def handler000 (verify : Verifier) (store : Sink) (now : String)
    (req : Request000) (s : State000) : Response000 × State000 :=
  if req.method ≠ "POST" then (.methodNotAllowed, s)
  else
    match verify (verifiedBytes000 req) req.sig with
    | .error msg => (.webhookError msg, s)
    | .ok event =>
      if s.processedEvents.contains event.id then
        (.duplicate event.id, s)
      else
        let s1 : State000 :=
          { s with
            stripeEvents := s.stripeEvents ++ [rawRecord000 now event]
            processedEvents := s.processedEvents ++ [event.id] }
        if event.type = "checkout.session.completed" then
          let s2 : State000 :=
            { s1 with
              handlerCalls := s1.handlerCalls + 1
              sinkCalls := s1.sinkCalls + 1 }
          match store (buildRecord now event.data.object) with
          | .ok _ => (.success event.id event.type, s2)
          | .error _ =>
            (.processingFailed event.id,
             { s2 with
               processedEvents := s2.processedEvents.filter (fun x => x != event.id) })
        else (.success event.id event.type, s1)

/-- An inbound request as seen by the express variants that mount
`express.raw` on the webhook route (src/unnamed/part_002 and part_009):
the body reaches the handler as the unparsed wire bytes. -/
structure Request009 where
  rawBody : String
  sig : Option String

/-- The byte sequence handed to signature verification by the raw-body
route of src/unnamed/part_002 lines 8-24: the wire bytes themselves. -/
def verifiedBytes002 (req : Request009) : String := req.rawBody

/-- The record pushed onto `eventLog` by src/unnamed/part_009 lines
785-793 and mutated in place afterwards; modelled with its final
`action` and `error` values. -/
structure EventRecord009 where
  id : String
  type : String
  created : Int
  timestamp : String
  data : EventData
  isRetry : Bool
  action : Option String
  error : Option String
deriving DecidableEq

/-- Construction of a part_009 event log record. -/
def record009 (now : String) (e : Event) (retry : Bool)
    (action : Option String) (err : Option String) : EventRecord009 :=
  { id := e.id
    type := e.type
    created := e.created
    timestamp := now
    data := e.data
    isRetry := retry
    action := action
    error := err }

/-- Abstraction of the three registered domain handlers of part_009
(`handleCheckoutCompleted`, `handleSubscriptionCreated`,
`handlePaymentSucceeded`), keyed by the event type. -/
abbrev Handler009 := String → Session → Except String Unit

/-- The module-level mutable state of src/unnamed/part_009
(`processedEvents` ledger and `eventLog`) plus the handler-invocation
counter. -/
structure State009 where
  processedEvents : List String
  eventLog : List EventRecord009
  handlerCalls : Nat
deriving DecidableEq

/-- The distinct responses produced by the part_009 handler. -/
inductive Response009 where
  | webhookError (msg : String)
  | duplicate
  | success
  | processingFailed
deriving DecidableEq

/-- HTTP status of each part_009 response. -/
def Response009.statusOf : Response009 → Nat
  | .webhookError _ => 400
  | .duplicate => 200
  | .success => 200
  | .processingFailed => 500

/-- The `processed` field of the part_009 JSON body, where present. -/
def Response009.processedFlag : Response009 → Option Bool
  | .duplicate => some false
  | .success => some true
  | _ => none

/-- The `reason` field of the part_009 JSON body, where present. -/
def Response009.reasonOf : Response009 → Option String
  | .duplicate => some "duplicate"
  | _ => none

/-- Whether part_009 has a registered handler for the event type
(the if/else chain of lines 808-814). -/
def handled009 (t : String) : Bool :=
  t == "checkout.session.completed" ||
  t == "customer.subscription.created" ||
  t == "invoice.payment_succeeded"

/-- The webhook handler of src/unnamed/part_009 lines 769-829.  The
source pushes one record onto `eventLog` and then mutates that record's
`action`/`error` fields in place; the embedding appends the record with
its final field values, which yields the same final state.  On handler
failure the claim is removed again (line 825) and the response is 500. -/
def handler009 (verify : Verifier) (handle : Handler009) (now : String)
    (req : Request009) (s : State009) : Response009 × State009 :=
  match verify req.rawBody req.sig with
  | .error msg => (.webhookError msg, s)
  | .ok event =>
    if s.processedEvents.contains event.id then
      (.duplicate,
       { s with
         eventLog := s.eventLog ++ [record009 now event true (some "SKIPPED_DUPLICATE") none] })
    else
      let s1 : State009 := { s with processedEvents := s.processedEvents ++ [event.id] }
      if handled009 event.type then
        let s2 : State009 := { s1 with handlerCalls := s1.handlerCalls + 1 }
        match handle event.type event.data.object with
        | .ok _ =>
          (.success,
           { s2 with
             eventLog := s2.eventLog ++ [record009 now event false (some "PROCESSED") none] })
        | .error msg =>
          (.processingFailed,
           { s2 with
             eventLog := s2.eventLog ++ [record009 now event false (some "ERROR") (some msg)]
             processedEvents := s2.processedEvents.filter (fun x => x != event.id) })
      else
        (.success,
         { s1 with
           eventLog := s1.eventLog ++ [record009 now event false (some "PROCESSED") none] })

/-- A minimal checkout session: amount 2000 minor units, currency usd,
no discounts, no metadata, no line items (the scenario payload of the
specification's testable properties). -/
def sampleSession : Session :=
  { id := "cs_test_1"
    customer := some "cus_1"
    subscription := some "sub_1"
    amount_total := 2000
    currency := "usd"
    metadata := none
    line_items := none
    client_reference_id := none
    total_details := none }

/-- A verified `checkout.session.completed` event wrapping `sampleSession`. -/
def sampleEvent : Event :=
  { id := "evt_1"
    type := "checkout.session.completed"
    created := 1700000000
    data := { object := sampleSession } }

/-- A verified event of a type with no registered handler. -/
def sampleOtherEvent : Event :=
  { id := "evt_2"
    type := "payment_intent.succeeded"
    created := 1700000001
    data := { object := sampleSession } }

/-- A request whose body is irrelevant to the theorems that use it. -/
def sampleReq : Request000 :=
  { method := "POST"
    rawBytes := "null"
    body := Json.null
    sig := some "t=1,v1=cafe" }

/-- A raw-body request for the part_009 handler. -/
def sampleReq9 : Request009 :=
  { rawBody := "null"
    sig := some "t=1,v1=cafe" }

/-- The empty part_000 state. -/
def emptyState000 : State000 :=
  { processedEvents := [], stripeEvents := [], handlerCalls := 0, sinkCalls := 0 }

/-- The empty part_009 state. -/
def emptyState009 : State009 :=
  { processedEvents := [], eventLog := [], handlerCalls := 0 }

/-- A sink that always succeeds. -/
def sinkOk : Sink := fun _ => Except.ok ()

/-- A sink that fails with a transient delivery error. -/
def sinkFail : Sink := fun _ => Except.error "airtable unavailable"

/-- A verifier that accepts everything as `sampleEvent` (stands for a
correctly signed checkout notification). -/
def verifyAsSample : Verifier := fun _ _ => Except.ok sampleEvent

/-- A verifier that accepts everything as `sampleOtherEvent`. -/
def verifyAsOther : Verifier := fun _ _ => Except.ok sampleOtherEvent

/-- A verifier that rejects everything (stands for a tampered body or
garbled signature header). -/
def verifyReject : Verifier := fun _ _ => Except.error "No signatures found matching the expected signature for payload"

/-- The wire bytes of the C4 counterexample request: a JSON body with
one interior space, exactly as a provider may legitimately send it. -/
def wireBytesC4 : String := "\x7b\"a\": 1\x7d"

/-- The structure the platform body parser produces from `wireBytesC4`. -/
def bodyC4 : Json := Json.obj [("a", Json.num 1)]

/-- The C4 counterexample request as seen by the part_000 handler. -/
def reqC4 : Request000 :=
  { method := "POST"
    rawBytes := wireBytesC4
    body := bodyC4
    sig := some "t=1,v1=cafe" }

/-- A discount entry carrying the PHENOM100 coupon. -/
def phenomItem : DiscountItem :=
  { discount := some { coupon := some { id := "PHENOM100" } } }

/-- A discount entry carrying a different coupon. -/
def otherItem : DiscountItem :=
  { discount := some { coupon := some { id := "SUMMER10" } } }

/-- A discount entry without a coupon object. -/
def bareItem : DiscountItem :=
  { discount := none }

/-- A part_000 state in which `evt_1` is already claimed and the event
log is empty. -/
def claimedState000 : State000 :=
  { processedEvents := ["evt_1"], stripeEvents := [], handlerCalls := 0, sinkCalls := 0 }

/-- A part_009 state in which `evt_1` is already claimed and the event
log is empty. -/
def claimedState009 : State009 :=
  { processedEvents := ["evt_1"], eventLog := [], handlerCalls := 0 }

/-- A part_009 domain handler that always succeeds. -/
def handleOk : Handler009 := fun _ _ => Except.ok ()

/-- A part_009 domain handler that always fails. -/
def handleFail : Handler009 := fun _ _ => Except.error "zapier relay returned 500"

/-- Membership in the idempotency ledger after appending the identifier. -/
theorem contains_append_self (l : List String) (a : String) : (l ++ [a]).contains a = true := by
  simp

/-- Removing an identifier that was never claimed leaves the ledger unchanged. -/
theorem filter_ne_of_contains_false (l : List String) (a : String)
    (h : l.contains a = false) : l.filter (fun x => x != a) = l := by
  simp at h
  rw [List.filter_eq_self]
  intro x hx
  simp
  intro he
  exact h (he ▸ hx)

/-- Claiming and then releasing an identifier restores the original ledger. -/
theorem append_self_filter (l : List String) (a : String)
    (h : l.contains a = false) : (l ++ [a]).filter (fun x => x != a) = l := by
  rw [List.filter_append, filter_ne_of_contains_false l a h]
  simp

/-- Closed form of the discount scan loop: the outcome depends only on
whether some entry carries the PHENOM100 coupon. -/
theorem phenomScan_eq (l : List DiscountItem) :
    phenomScan l = (if l.any couponHit then ("PHENOM100", true) else ("", false)) := by
  induction l with
  | nil => rfl
  | cons d rest ih =>
    by_cases hd : couponHit d <;> simp [phenomScan, hd, ih]

/-- C6: the builder scans the discount breakdown for a coupon whose
identifier equals PHENOM100 exactly; a hit anywhere sets the partner
flag and the code PHENOM100, no hit leaves them false and empty, and
the scan's result is already determined at the first hit (entries after
a hit are irrelevant). -/
theorem phenom_exact_first_match (now : String) (s : Session) :
    (buildRecord now s).phenom_partner = (discountsOf s).any couponHit ∧
    (buildRecord now s).phenom_code =
      (if (discountsOf s).any couponHit then "PHENOM100" else "") ∧
    ∀ l1 l2 : List DiscountItem, ∀ d : DiscountItem, couponHit d = true →
      phenomScan (l1 ++ d :: l2) = ("PHENOM100", true) := by
  refine ⟨?_, ?_, fun l1 l2 d hd => ?_⟩
  · cases hany : (discountsOf s).any couponHit <;>
      simp [buildRecord, phenomScan_eq, hany]
  · cases hany : (discountsOf s).any couponHit <;>
      simp [buildRecord, phenomScan_eq, hany]
  · rw [phenomScan_eq]
    simp [hd]

/-- Witness for C6 at concrete discount lists: a PHENOM100 entry after a
non-matching entry and before a bare entry yields the partner outcome,
and the builder field agrees with the scan on the scenario payload. -/
theorem phenom_exact_first_match_witness :
    couponHit phenomItem = true ∧
    phenomScan ([otherItem] ++ phenomItem :: [bareItem]) = ("PHENOM100", true) ∧
    (buildRecord "t0" sampleSession).phenom_partner = (discountsOf sampleSession).any couponHit :=
  ⟨by decide,
   (phenom_exact_first_match "t0" sampleSession).2.2 [otherItem] [bareItem] phenomItem (by decide),
   (phenom_exact_first_match "t0" sampleSession).1⟩

/-- C5 counterexample: the builder stamps the record with the build-time
clock reading (`created_at`, source line 103), so two invocations on the
identical payload at different instants do not produce identical records. -/
theorem builder_output_varies_with_clock :
    buildRecord "2025-01-01T00:00:00.000Z" sampleSession ≠
      buildRecord "2025-01-01T00:00:01.000Z" sampleSession := by
  decide

/-- C5 amended: the builder is a pure function of the payload and the
build-time clock reading; two invocations on an identical payload agree
on every field except the `created_at` timestamp, which is exactly the
clock reading. -/
theorem builder_deterministic_up_to_timestamp :
    ∀ now1 now2 : String, ∀ s : Session,
      recordCore (buildRecord now1 s) = recordCore (buildRecord now2 s) ∧
      (buildRecord now1 s).created_at = now1 :=
  fun _ _ _ => ⟨rfl, rfl⟩

/-- C9: the builder copies `amount_total` and `currency` verbatim from
the payload (minor units, no division), and on the scenario payload
(amount_total 2000, currency usd, no discounts) the record has amount
2000, currency usd and a false partner flag. -/
theorem amount_currency_copied_verbatim :
    (∀ now : String, ∀ s : Session,
      (buildRecord now s).amount_total = s.amount_total ∧
      (buildRecord now s).currency = s.currency) ∧
    (buildRecord "2025-01-01T00:00:00.000Z" sampleSession).amount_total = 2000 ∧
    (buildRecord "2025-01-01T00:00:00.000Z" sampleSession).currency = "usd" ∧
    (buildRecord "2025-01-01T00:00:00.000Z" sampleSession).phenom_partner = false :=
  ⟨fun _ _ => ⟨rfl, rfl⟩, rfl, rfl, by decide⟩

/-- C4: src/unnamed/part_000 does not hand the wire bytes to signature
verification; it hands `JSON.stringify(req.body)`, a re-serialization of
the parsed body.  On a legitimate request whose body contains an
interior space the platform parser accepts the bytes, yet the bytes
handed to verification differ from the wire bytes (the whitespace is
normalized away).  The raw-body routes (src/unnamed/part_002) hand the
wire bytes through unchanged. -/
theorem verified_bytes_are_reencoded_not_raw :
    Json.parse reqC4.rawBytes = some reqC4.body ∧
    verifiedBytes000 reqC4 = "\x7b\"a\":1\x7d" ∧
    verifiedBytes000 reqC4 ≠ reqC4.rawBytes ∧
    (∀ r : Request009, verifiedBytes002 r = r.rawBody) :=
  ⟨rfl, rfl, by decide, fun _ => rfl⟩

/-- A fresh dispatch through the part_000 handler with a succeeding sink:
the response is the success acknowledgment, the event is logged, the
identifier is claimed, and the invocation counters advance exactly when
the event type has a registered handler. -/
theorem handler000_fresh_success (verify : Verifier) (store : Sink) (now : String)
    (req : Request000) (s : State000) (e : Event)
    (hm : req.method = "POST")
    (hv : verify (verifiedBytes000 req) req.sig = Except.ok e)
    (hnew : s.processedEvents.contains e.id = false)
    (hst : store (buildRecord now e.data.object) = Except.ok ()) :
    handler000 verify store now req s =
      (Response000.success e.id e.type,
       { processedEvents := s.processedEvents ++ [e.id]
         stripeEvents := s.stripeEvents ++ [rawRecord000 now e]
         handlerCalls := s.handlerCalls + (if e.type = "checkout.session.completed" then 1 else 0)
         sinkCalls := s.sinkCalls + (if e.type = "checkout.session.completed" then 1 else 0) }) := by
  have hnew' : e.id ∉ s.processedEvents := by simpa using hnew
  by_cases ht : e.type = "checkout.session.completed" <;>
    simp [handler000, hm, hv, hnew', ht, hst]

/-- A dispatch through the part_000 handler for an identifier already in
the ledger: the duplicate acknowledgment is returned and the state is
untouched. -/
theorem handler000_duplicate_run (verify : Verifier) (store : Sink) (now : String)
    (req : Request000) (s : State000) (e : Event)
    (hm : req.method = "POST")
    (hv : verify (verifiedBytes000 req) req.sig = Except.ok e)
    (hcl : s.processedEvents.contains e.id = true) :
    handler000 verify store now req s = (Response000.duplicate e.id, s) := by
  have hcl' : e.id ∈ s.processedEvents := by simpa using hcl
  simp [handler000, hm, hv, hcl']

/-- C1: when signature verification fails, both dispatchers answer 400
and return their state untouched: the event log gains no entry, the
ledger gains no claim, and no handler or sink invocation happens. -/
theorem sigfail_rejects_and_writes_nothing
    (verify : Verifier) (store : Sink) (handle : Handler009)
    (now now9 : String) (req : Request000) (req9 : Request009)
    (s : State000) (s9 : State009) (msg msg9 : String)
    (hm : req.method = "POST")
    (hv : verify (verifiedBytes000 req) req.sig = Except.error msg)
    (hv9 : verify req9.rawBody req9.sig = Except.error msg9) :
    handler000 verify store now req s = (Response000.webhookError msg, s) ∧
    (Response000.webhookError msg).statusOf = 400 ∧
    handler009 verify handle now9 req9 s9 = (Response009.webhookError msg9, s9) ∧
    (Response009.webhookError msg9).statusOf = 400 := by
  refine ⟨?_, rfl, ?_, rfl⟩
  · simp [handler000, hm, hv]
  · simp [handler009, hv9]

/-- Witness for C1: the rejecting verifier on concrete requests leaves
the empty states untouched and answers 400. -/
theorem sigfail_rejects_witness :
    handler000 verifyReject sinkOk "t0" sampleReq emptyState000 =
      (Response000.webhookError "No signatures found matching the expected signature for payload",
       emptyState000) ∧
    handler009 verifyReject handleOk "t0" sampleReq9 emptyState009 =
      (Response009.webhookError "No signatures found matching the expected signature for payload",
       emptyState009) :=
  ⟨(sigfail_rejects_and_writes_nothing verifyReject sinkOk handleOk "t0" "t0" sampleReq sampleReq9
      emptyState000 emptyState009 _ _ rfl rfl rfl).1,
   (sigfail_rejects_and_writes_nothing verifyReject sinkOk handleOk "t0" "t0" sampleReq sampleReq9
      emptyState000 emptyState009 _ _ rfl rfl rfl).2.2.1⟩

/-- C2: after one successful dispatch of an identifier, a second
dispatch with the same identifier returns the 200 acknowledgment with
processed false and reason duplicate, leaves the state exactly as it
was, and performs zero additional handler or sink invocations. -/
theorem duplicate_redelivery_acknowledged
    (verify : Verifier) (store : Sink) (now now2 : String)
    (req req2 : Request000) (s : State000) (e e2 : Event)
    (hm : req.method = "POST")
    (hv : verify (verifiedBytes000 req) req.sig = Except.ok e)
    (hnew : s.processedEvents.contains e.id = false)
    (hst : store (buildRecord now e.data.object) = Except.ok ())
    (hm2 : req2.method = "POST")
    (hv2 : verify (verifiedBytes000 req2) req2.sig = Except.ok e2)
    (hid : e2.id = e.id) :
    (handler000 verify store now req s).1 = Response000.success e.id e.type ∧
    handler000 verify store now2 req2 (handler000 verify store now req s).2 =
      (Response000.duplicate e2.id, (handler000 verify store now req s).2) ∧
    (Response000.duplicate e2.id).statusOf = 200 ∧
    (Response000.duplicate e2.id).receivedFlag = some true ∧
    (Response000.duplicate e2.id).processedFlag = some false ∧
    (Response000.duplicate e2.id).reasonOf = some "duplicate" ∧
    (handler000 verify store now2 req2 (handler000 verify store now req s).2).2.handlerCalls =
      (handler000 verify store now req s).2.handlerCalls ∧
    (handler000 verify store now2 req2 (handler000 verify store now req s).2).2.sinkCalls =
      (handler000 verify store now req s).2.sinkCalls := by
  have h1 := handler000_fresh_success verify store now req s e hm hv hnew hst
  have hc : (handler000 verify store now req s).2.processedEvents.contains e2.id = true := by
    rw [h1, hid]
    exact contains_append_self _ _
  have h2 := handler000_duplicate_run verify store now2 req2
    (handler000 verify store now req s).2 e2 hm2 hv2 hc
  exact ⟨by rw [h1], h2, rfl, rfl, rfl, rfl, by rw [h2], by rw [h2]⟩

/-- Witness for C2: a concrete checkout notification dispatched twice
through the part_000 handler; the first run succeeds, the second is the
duplicate acknowledgment with the state returned untouched. -/
theorem duplicate_redelivery_witness :
    (handler000 verifyAsSample sinkOk "t1" sampleReq emptyState000).1 =
      Response000.success "evt_1" "checkout.session.completed" ∧
    handler000 verifyAsSample sinkOk "t2" sampleReq
        (handler000 verifyAsSample sinkOk "t1" sampleReq emptyState000).2 =
      (Response000.duplicate "evt_1",
       (handler000 verifyAsSample sinkOk "t1" sampleReq emptyState000).2) :=
  ⟨(duplicate_redelivery_acknowledged verifyAsSample sinkOk "t1" "t2" sampleReq sampleReq
      emptyState000 sampleEvent sampleEvent rfl rfl (by decide) rfl rfl rfl rfl).1,
   (duplicate_redelivery_acknowledged verifyAsSample sinkOk "t1" "t2" sampleReq sampleReq
      emptyState000 sampleEvent sampleEvent rfl rfl (by decide) rfl rfl rfl rfl).2.1⟩

/-- C3: a failing handler invocation answers 500, the ledger claim is
released (the ledger returns to exactly its prior content, so no
claimed-but-never-delivered state persists), and a subsequent dispatch
of the same identifier is treated as a fresh, non-duplicate attempt. -/
theorem handler_failure_releases_claim
    (verify : Verifier) (store store2 : Sink) (now now2 : String)
    (req : Request000) (s : State000) (e : Event) (msg : String)
    (hm : req.method = "POST")
    (hv : verify (verifiedBytes000 req) req.sig = Except.ok e)
    (hnew : s.processedEvents.contains e.id = false)
    (ht : e.type = "checkout.session.completed")
    (hst : store (buildRecord now e.data.object) = Except.error msg)
    (hst2 : store2 (buildRecord now2 e.data.object) = Except.ok ()) :
    handler000 verify store now req s =
      (Response000.processingFailed e.id,
       { processedEvents := s.processedEvents
         stripeEvents := s.stripeEvents ++ [rawRecord000 now e]
         handlerCalls := s.handlerCalls + 1
         sinkCalls := s.sinkCalls + 1 }) ∧
    (Response000.processingFailed e.id).statusOf = 500 ∧
    (handler000 verify store now req s).2.processedEvents.contains e.id = false ∧
    (handler000 verify store2 now2 req (handler000 verify store now req s).2).1 =
      Response000.success e.id e.type := by
  have hnew' : e.id ∉ s.processedEvents := by simpa using hnew
  have hrun : handler000 verify store now req s =
      (Response000.processingFailed e.id,
       { processedEvents := s.processedEvents
         stripeEvents := s.stripeEvents ++ [rawRecord000 now e]
         handlerCalls := s.handlerCalls + 1
         sinkCalls := s.sinkCalls + 1 }) := by
    simp [handler000, hm, hv, hnew', ht, hst,
      filter_ne_of_contains_false s.processedEvents e.id hnew]
  refine ⟨hrun, rfl, ?_, ?_⟩
  · rw [hrun]
    exact hnew
  · rw [hrun]
    exact congrArg Prod.fst (handler000_fresh_success verify store2 now2 req
      { processedEvents := s.processedEvents
        stripeEvents := s.stripeEvents ++ [rawRecord000 now e]
        handlerCalls := s.handlerCalls + 1
        sinkCalls := s.sinkCalls + 1 } e hm hv hnew hst2)

/-- Witness for C3: a concrete checkout notification whose sink delivery
fails; the run answers 500 with the claim released, and a retry with a
working sink succeeds. -/
theorem handler_failure_witness :
    handler000 verifyAsSample sinkFail "t5" sampleReq emptyState000 =
      (Response000.processingFailed "evt_1",
       { processedEvents := []
         stripeEvents := [rawRecord000 "t5" sampleEvent]
         handlerCalls := 1
         sinkCalls := 1 }) ∧
    (handler000 verifyAsSample sinkOk "t6" sampleReq
        (handler000 verifyAsSample sinkFail "t5" sampleReq emptyState000).2).1 =
      Response000.success "evt_1" "checkout.session.completed" :=
  ⟨(handler_failure_releases_claim verifyAsSample sinkFail sinkOk "t5" "t6" sampleReq
      emptyState000 sampleEvent "airtable unavailable" rfl rfl (by decide) rfl rfl rfl).1,
   (handler_failure_releases_claim verifyAsSample sinkFail sinkOk "t5" "t6" sampleReq
      emptyState000 sampleEvent "airtable unavailable" rfl rfl (by decide) rfl rfl rfl).2.2.2⟩

/-- C10: a verified event of a type with no registered handler and an
unclaimed identifier is still logged and its identifier claimed, the
response is 200 with processed true, no handler or sink invocation
happens, and a later re-delivery of the same identifier is acknowledged
as a duplicate even though the type was never actually processed. -/
theorem unhandled_type_still_consumes_claim
    (verify : Verifier) (store : Sink) (now now2 : String)
    (req req2 : Request000) (s : State000) (e : Event)
    (hm : req.method = "POST")
    (hv : verify (verifiedBytes000 req) req.sig = Except.ok e)
    (hnew : s.processedEvents.contains e.id = false)
    (ht : e.type ≠ "checkout.session.completed")
    (hm2 : req2.method = "POST")
    (hv2 : verify (verifiedBytes000 req2) req2.sig = Except.ok e) :
    handler000 verify store now req s =
      (Response000.success e.id e.type,
       { processedEvents := s.processedEvents ++ [e.id]
         stripeEvents := s.stripeEvents ++ [rawRecord000 now e]
         handlerCalls := s.handlerCalls
         sinkCalls := s.sinkCalls }) ∧
    (Response000.success e.id e.type).statusOf = 200 ∧
    (Response000.success e.id e.type).receivedFlag = some true ∧
    (Response000.success e.id e.type).processedFlag = some true ∧
    handler000 verify store now2 req2 (handler000 verify store now req s).2 =
      (Response000.duplicate e.id, (handler000 verify store now req s).2) := by
  have hnew' : e.id ∉ s.processedEvents := by simpa using hnew
  have h1 : handler000 verify store now req s =
      (Response000.success e.id e.type,
       { processedEvents := s.processedEvents ++ [e.id]
         stripeEvents := s.stripeEvents ++ [rawRecord000 now e]
         handlerCalls := s.handlerCalls
         sinkCalls := s.sinkCalls }) := by
    simp [handler000, hm, hv, hnew', ht]
  have hc : (handler000 verify store now req s).2.processedEvents.contains e.id = true := by
    rw [h1]
    exact contains_append_self _ _
  exact ⟨h1, rfl, rfl, rfl,
    handler000_duplicate_run verify store now2 req2 _ e hm2 hv2 hc⟩

/-- Witness for C10: a concrete `payment_intent.succeeded` notification
is logged, claimed and acknowledged with processed true although no
handler ran, and its re-delivery is acknowledged as a duplicate. -/
theorem unhandled_type_witness :
    handler000 verifyAsOther sinkOk "t7" sampleReq emptyState000 =
      (Response000.success "evt_2" "payment_intent.succeeded",
       { processedEvents := ["evt_2"]
         stripeEvents := [rawRecord000 "t7" sampleOtherEvent]
         handlerCalls := 0
         sinkCalls := 0 }) ∧
    handler000 verifyAsOther sinkOk "t8" sampleReq
        (handler000 verifyAsOther sinkOk "t7" sampleReq emptyState000).2 =
      (Response000.duplicate "evt_2",
       (handler000 verifyAsOther sinkOk "t7" sampleReq emptyState000).2) :=
  ⟨(unhandled_type_still_consumes_claim verifyAsOther sinkOk "t7" "t8" sampleReq sampleReq
      emptyState000 sampleOtherEvent rfl rfl (by decide) (by decide) rfl rfl).1,
   (unhandled_type_still_consumes_claim verifyAsOther sinkOk "t7" "t8" sampleReq sampleReq
      emptyState000 sampleOtherEvent rfl rfl (by decide) (by decide) rfl rfl).2.2.2.2⟩

/-- C7 counterexample: the part_000 dispatcher, on an identifier already
claimed at dispatch time, short-circuits with the duplicate
acknowledgment but writes no event record whatsoever: the event log
that was empty before the dispatch is still empty after it, so no
EventRecord with outcome duplicate was updated or inserted. -/
theorem duplicate_path_writes_no_record :
    handler000 verifyAsSample sinkOk "t0" sampleReq claimedState000 =
      (Response000.duplicate "evt_1", claimedState000) ∧
    (handler000 verifyAsSample sinkOk "t0" sampleReq claimedState000).2.stripeEvents = [] := by
  exact ⟨by decide, by decide⟩

/-- C7 amended: on an identifier already claimed at dispatch time, both
dispatchers short-circuit without invoking any handler and report
success with processed false and reason duplicate; the part_009
dispatcher additionally appends an event record marked
SKIPPED_DUPLICATE with the retry flag set, while the part_000
dispatcher leaves the event log untouched. -/
theorem duplicate_short_circuit_marks_log009
    (verify : Verifier) (handle : Handler009) (store : Sink)
    (now now0 : String) (req9 : Request009) (req : Request000)
    (s9 : State009) (s : State000) (e : Event)
    (hv9 : verify req9.rawBody req9.sig = Except.ok e)
    (hcl9 : s9.processedEvents.contains e.id = true)
    (hm : req.method = "POST")
    (hv : verify (verifiedBytes000 req) req.sig = Except.ok e)
    (hcl : s.processedEvents.contains e.id = true) :
    handler009 verify handle now req9 s9 =
      (Response009.duplicate,
       { s9 with
         eventLog := s9.eventLog ++ [record009 now e true (some "SKIPPED_DUPLICATE") none] }) ∧
    Response009.duplicate.statusOf = 200 ∧
    Response009.duplicate.processedFlag = some false ∧
    Response009.duplicate.reasonOf = some "duplicate" ∧
    (handler009 verify handle now req9 s9).2.handlerCalls = s9.handlerCalls ∧
    handler000 verify store now0 req s = (Response000.duplicate e.id, s) := by
  have hcl9' : e.id ∈ s9.processedEvents := by simpa using hcl9
  have h9 : handler009 verify handle now req9 s9 =
      (Response009.duplicate,
       { s9 with
         eventLog := s9.eventLog ++ [record009 now e true (some "SKIPPED_DUPLICATE") none] }) := by
    simp [handler009, hv9, hcl9']
  exact ⟨h9, rfl, rfl, rfl, by rw [h9],
    handler000_duplicate_run verify store now0 req s e hm hv hcl⟩

/-- Witness for the amended C7 at a concrete re-delivered notification:
part_009 appends the SKIPPED_DUPLICATE record, part_000 returns its
state untouched. -/
theorem duplicate_short_circuit_witness :
    handler009 verifyAsSample handleOk "t3" sampleReq9 claimedState009 =
      (Response009.duplicate,
       { claimedState009 with
         eventLog := claimedState009.eventLog ++
           [record009 "t3" sampleEvent true (some "SKIPPED_DUPLICATE") none] }) ∧
    handler000 verifyAsSample sinkOk "t3" sampleReq claimedState000 =
      (Response000.duplicate "evt_1", claimedState000) :=
  ⟨(duplicate_short_circuit_marks_log009 verifyAsSample handleOk sinkOk "t3" "t3" sampleReq9
      sampleReq claimedState009 claimedState000 sampleEvent rfl (by decide) rfl rfl
      (by decide)).1,
   (duplicate_short_circuit_marks_log009 verifyAsSample handleOk sinkOk "t3" "t3" sampleReq9
      sampleReq claimedState009 claimedState000 sampleEvent rfl (by decide) rfl rfl
      (by decide)).2.2.2.2.2⟩

/-- C8 counterexample: in part_000 a handler failure leaves the stored
event record indistinguishable from the success case: the event store
contents after a failing run equal the contents after a succeeding run
on the same notification, and the single stored record carries no
outcome or error field at all, so no outcome is updated to failed. -/
theorem failure_leaves_no_trace_in_store000 :
    (handler000 verifyAsSample sinkFail "t0" sampleReq emptyState000).2.stripeEvents =
      (handler000 verifyAsSample sinkOk "t0" sampleReq emptyState000).2.stripeEvents ∧
    (handler000 verifyAsSample sinkFail "t0" sampleReq emptyState000).1 =
      Response000.processingFailed "evt_1" ∧
    (handler000 verifyAsSample sinkFail "t0" sampleReq emptyState000).2.stripeEvents =
      [rawRecord000 "t0" sampleEvent] := by
  exact ⟨by decide, by decide, by decide⟩

/-- C8 amended: in part_009 a handler failure updates the event's log
record to action ERROR together with the error description, the record
(and every earlier record) remains in the log, and the response is 500;
in part_000 the stored record remains but carries no failure marking. -/
theorem failure_marked_in_eventlog009
    (verify : Verifier) (handle : Handler009) (now : String)
    (req9 : Request009) (s9 : State009) (e : Event) (msg : String)
    (hv9 : verify req9.rawBody req9.sig = Except.ok e)
    (hnew9 : s9.processedEvents.contains e.id = false)
    (hh : handled009 e.type = true)
    (hfail : handle e.type e.data.object = Except.error msg) :
    handler009 verify handle now req9 s9 =
      (Response009.processingFailed,
       { processedEvents := s9.processedEvents
         eventLog := s9.eventLog ++ [record009 now e false (some "ERROR") (some msg)]
         handlerCalls := s9.handlerCalls + 1 }) ∧
    Response009.processingFailed.statusOf = 500 ∧
    (record009 now e false (some "ERROR") (some msg)).action = some "ERROR" ∧
    (record009 now e false (some "ERROR") (some msg)).error = some msg ∧
    ∀ r ∈ s9.eventLog, r ∈ (handler009 verify handle now req9 s9).2.eventLog := by
  have hnew9' : e.id ∉ s9.processedEvents := by simpa using hnew9
  have h9 : handler009 verify handle now req9 s9 =
      (Response009.processingFailed,
       { processedEvents := s9.processedEvents
         eventLog := s9.eventLog ++ [record009 now e false (some "ERROR") (some msg)]
         handlerCalls := s9.handlerCalls + 1 }) := by
    simp [handler009, hv9, hnew9', hh, hfail,
      filter_ne_of_contains_false s9.processedEvents e.id hnew9]
  refine ⟨h9, rfl, rfl, rfl, ?_⟩
  intro r hr
  rw [h9]
  exact List.mem_append_left _ hr

/-- Witness for the amended C8: a concrete checkout notification whose
domain handler fails is recorded with action ERROR and the error
message, the ledger claim is gone, and the response is 500. -/
theorem failure_marked_witness :
    handler009 verifyAsSample handleFail "t4" sampleReq9 emptyState009 =
      (Response009.processingFailed,
       { processedEvents := []
         eventLog := [record009 "t4" sampleEvent false (some "ERROR")
           (some "zapier relay returned 500")]
         handlerCalls := 1 }) :=
  (failure_marked_in_eventlog009 verifyAsSample handleFail "t4" sampleReq9 emptyState009
    sampleEvent "zapier relay returned 500" rfl (by decide) (by decide) rfl).1
